import Mathlib

/-!
Verification of the route-safety pipeline of the UnfoldIndia backend.

The Lean definitions below are a shallow embedding of the Python sources:
  backend/app/services/safety_engine.py
  backend/app/services/route_service.py
  backend/app/routers/route.py
Python floats are modelled as exact rationals (ℚ); Python ints as ℤ;
raised exceptions as an explicit `Except` error channel.  External HTTP
calls (Nominatim geocoding, OSRM routing) are modelled by passing the
outcome of the call as an explicit value.
-/

/- ────────────────────────────────────────────────────────────────
   String helpers: Python str.strip / str.lower and the regex
   searches used by the two HIGHWAY_PATTERN constants.
   ──────────────────────────────────────────────────────────────── -/

/-- Python `str.strip()` with no argument: drop whitespace at both ends.
(The sources only ever strip ASCII road names and city names.) -/
def pyStrip (s : List Char) : List Char :=
  ((s.dropWhile Char.isWhitespace).reverse.dropWhile Char.isWhitespace).reverse

/-- Python `str.lower()` (ASCII; the matched literals are ASCII). -/
def lowerStr (s : List Char) : List Char :=
  s.map Char.toLower

/-- Models `place_name.strip().lower()`, the geocode-cache key normalisation. -/
def normKey (s : String) : String :=
  String.mk (lowerStr (pyStrip s.data))

/-- Python regex word character (`\w`), ASCII fragment. -/
def isWordChar (c : Char) : Bool :=
  c.isAlphanum || c = '_'

/-- Does word `w` occur at the head of `s`, followed by a word boundary
(end of string or a non-word character)?   `w` is assumed non-empty and
to start and end with word characters, as all HIGHWAY_PATTERN
alternatives do. -/
def headMatch : List Char → List Char → Bool
  | [], [] => true
  | [], c :: _ => !isWordChar c
  | _ :: _, [] => false
  | a :: w, b :: s => a == b && headMatch w s

/-- Scan `s` for an occurrence of `w` starting at a word boundary
(`atBoundary` records whether the current position follows a non-word
character or the start of the string). -/
def scanWord (w : List Char) : List Char → Bool → Bool
  | [], _ => false
  | c :: rest, atBoundary =>
    (atBoundary && headMatch w (c :: rest)) || scanWord w rest (!isWordChar c)

/-- Models `re.search` of the case-insensitive alternation `\b(w₁|w₂|…)\b`
over `text`: some alternative occurs in `text` delimited by word
boundaries.  Models `HIGHWAY_PATTERN.search(...) is not None`. -/
def patternSearch (words : List String) (text : String) : Bool :=
  words.any (fun w => scanWord (lowerStr w.data) (lowerStr text.data) true)

/-- safety_engine.HIGHWAY_PATTERN alternatives (includes motorway and trunk). -/
def ENGINE_HIGHWAY_WORDS : List String :=
  ["NH", "SH", "National Highway", "State Highway", "Expressway", "motorway", "trunk"]

/-- route_service.HIGHWAY_PATTERN alternatives (no motorway, no trunk). -/
def SERVICE_HIGHWAY_WORDS : List String :=
  ["NH", "SH", "National Highway", "State Highway", "Expressway"]

/- ────────────────────────────────────────────────────────────────
   Python round: banker's rounding (round half to even) on exact
   rationals, and rounding to `n` decimal places.
   ──────────────────────────────────────────────────────────────── -/

/-- Python `round(q)` to an integer: nearest, ties to even. -/
def pyRound (q : ℚ) : ℤ :=
  let f := ⌊q⌋
  let r := q - (f : ℚ)
  if r < 1/2 then f
  else if 1/2 < r then f + 1
  else if f % 2 = 0 then f else f + 1

/-- Python `round(q, n)` for `n ≥ 0` decimal places. -/
def roundTo (n : ℕ) (q : ℚ) : ℚ :=
  (pyRound (q * 10 ^ n) : ℚ) / 10 ^ n

/- ────────────────────────────────────────────────────────────────
   Data model: a parsed OSRM route (the dict shapes the services
   read, as typed records).
   ──────────────────────────────────────────────────────────────── -/

/-- The `step["maneuver"]` fields read by the services. -/
structure Maneuver where
  type : String
  modifier : String
  location : List ℚ
deriving DecidableEq, Repr

/-- One OSRM step, with the fields the services read
(`distance`, `duration`, `name`, `ref`, `maneuver`). -/
structure Step where
  distance : ℚ
  duration : ℚ
  name : String
  ref : String
  maneuver : Maneuver
deriving DecidableEq, Repr

/-- The `route["geometry"]` value as forwarded verbatim by the service. -/
structure Geometry where
  type : String
  coordinates : List (List ℚ)
deriving DecidableEq, Repr

/-- One OSRM route candidate: total distance (m), total duration (s),
legs each holding a step list, and the geometry blob. -/
structure Route where
  distance : ℚ
  duration : ℚ
  legs : List (List Step)
  geometry : Geometry
deriving DecidableEq, Repr

/- ────────────────────────────────────────────────────────────────
   safety_engine.py
   ──────────────────────────────────────────────────────────────── -/

/-- Models `_extract_steps`: flatten all steps from all legs. -/
def _extract_steps (route : Route) : List Step :=
  route.legs.foldl (fun acc leg => acc ++ leg) []

/-- The `f"{name} {ref}"` string a step is matched against. -/
def Step.combined (s : Step) : String :=
  s.name ++ " " ++ s.ref

/-- Models `_compute_highway_ratio`: fraction of route distance on
highway / expressway / trunk, using the engine pattern and dividing by
the route-level total distance. -/
def _compute_highway_ratio (steps : List Step) (total_distance_m : ℚ) : ℚ :=
  if total_distance_m ≤ 0 then 0
  else
    (steps.foldl
      (fun acc s =>
        if patternSearch ENGINE_HIGHWAY_WORDS s.combined then acc + s.distance else acc)
      0) / total_distance_m

/-- Models `_compute_turn_density`: non-trivial maneuvers per kilometre. -/
def _compute_turn_density (steps : List Step) (total_distance_km : ℚ) : ℚ :=
  if total_distance_km ≤ 0 then 0
  else
    ((steps.countP
        (fun s => s.maneuver.type ≠ "depart" ∧ s.maneuver.type ≠ "arrive") : ℚ))
      / total_distance_km

/-- Loop body of `_compute_isolation`: state is
(current_run_m, longest_m); a step with blank (stripped) name and ref
extends the run, any other step flushes it into the running maximum. -/
def isoLoop : List Step → ℚ → ℚ → ℚ
  | [], current_run_m, longest_m =>
    -- final segment flush after the loop
    if current_run_m > longest_m then current_run_m else longest_m
  | s :: rest, current_run_m, longest_m =>
    if pyStrip s.name.data = [] ∧ pyStrip s.ref.data = [] then
      isoLoop rest (current_run_m + s.distance) longest_m
    else
      isoLoop rest 0 (if current_run_m > longest_m then current_run_m else longest_m)

/-- Models `_compute_isolation`: longest continuous unnamed segment, in km. -/
def _compute_isolation (steps : List Step) : ℚ :=
  isoLoop steps 0 0 / 1000

/-- Models `_classify_traffic`: speed-based traffic classification. -/
def _classify_traffic (duration_s distance_m : ℚ) : String :=
  if distance_m ≤ 0 ∨ duration_s ≤ 0 then "Moderate"
  else
    let avg_speed_kmh := (distance_m / 1000) / (duration_s / 3600)
    if avg_speed_kmh ≥ 70 then "Low"
    else if avg_speed_kmh ≥ 45 then "Moderate"
    else "High"

/-- The five penalty entries of the `penalties` dict (always exactly
these keys). -/
structure Penalties where
  road_type : ℤ
  turn_density : ℤ
  isolation : ℤ
  duration : ℤ
  traffic : ℤ
deriving DecidableEq, Repr

/-- Models `sum(penalties.values())`. -/
def Penalties.total (p : Penalties) : ℤ :=
  p.road_type + p.turn_density + p.isolation + p.duration + p.traffic

/-- Block A, highway-ratio penalty (day value). -/
def road_type_penalty (highway_ratio : ℚ) : ℤ :=
  if highway_ratio > 0.7 then 0
  else if highway_ratio ≥ 0.4 then -5
  else -10

/-- Block B, turn-density penalty. -/
def turn_density_penalty (turn_density : ℚ) : ℤ :=
  if turn_density < 1 then 0
  else if turn_density ≤ 2 then -5
  else -10

/-- Block C, isolation penalty before the night multiplier. -/
def isolation_penalty_day (longest_isolated_km : ℚ) : ℤ :=
  if longest_isolated_km > 50 then -15
  else if longest_isolated_km > 20 then -7
  else 0

/-- Models `int(iso_penalty * 1.5)`: float multiply then truncation toward
zero.  For every value the engine can produce (0, -7, -15) the float
product is exact, so truncating integer division models it exactly. -/
def night_scale_iso (p : ℤ) : ℤ :=
  Int.tdiv (p * 3) 2

/-- Models `int(penalties["road_type"] * 1.3)`: for the reachable values
(-5, -10) the float products are exactly 6.5 and 13.0, so truncating
integer division models the Python computation exactly. -/
def night_scale_road (p : ℤ) : ℤ :=
  Int.tdiv (p * 13) 10

/-- Block D, duration penalty. -/
def duration_penalty (total_duration_h : ℚ) : ℤ :=
  if total_duration_h > 8 then -10
  else if total_duration_h > 6 then -5
  else 0

/-- Block E, traffic penalty. -/
def traffic_penalty (traffic_level : String) : ℤ :=
  if traffic_level = "High" then -10
  else if traffic_level = "Moderate" then -5
  else 0

/-- The `SafetyResult` record, with the rounded presentation fields. -/
structure SafetyResult where
  score : ℚ
  highway_ratio : ℚ
  turn_density : ℚ
  longest_isolated_segment_km : ℚ
  traffic_level : String
  penalties : Penalties
  distance_km : ℚ
  duration_hours : ℚ
deriving DecidableEq, Repr

/-- The penalties dict assembled by `compute_safety` for given metrics
and mode (mode is the literal string "day" or "night"). -/
def computePenalties (highway_ratio turn_density longest_isolated_km : ℚ)
    (traffic_level : String) (total_duration_h : ℚ) (mode : String) : Penalties :=
  let road0 := road_type_penalty highway_ratio
  let iso0 := isolation_penalty_day longest_isolated_km
  let iso := if mode = "night" then night_scale_iso iso0 else iso0
  let road := if mode = "night" ∧ road0 < 0 then night_scale_road road0 else road0
  { road_type := road
    turn_density := turn_density_penalty turn_density
    isolation := iso
    duration := duration_penalty total_duration_h
    traffic := traffic_penalty traffic_level }

/-- Models `compute_safety`: deterministic safety scoring of one route.
`round(clamped / 10.0, 1)` is modelled as exact division by 10:
`clamped` is an integer, so the quotient has exactly one decimal digit
and the rounding is the identity. -/
def compute_safety (route : Route) (mode : String) : SafetyResult :=
  let total_distance_m := route.distance
  let total_duration_s := route.duration
  let total_distance_km := total_distance_m / 1000
  let total_duration_h := total_duration_s / 3600
  let steps := _extract_steps route
  let highway_ratio := _compute_highway_ratio steps total_distance_m
  let turn_density := _compute_turn_density steps total_distance_km
  let longest_isolated_km := _compute_isolation steps
  let traffic_level := _classify_traffic total_duration_s total_distance_m
  let penalties :=
    computePenalties highway_ratio turn_density longest_isolated_km
      traffic_level total_duration_h mode
  let raw : ℤ := 100 + penalties.total
  let clamped : ℤ := max 10 raw
  let normalised : ℚ := (clamped : ℚ) / 10
  { score := normalised
    highway_ratio := roundTo 3 highway_ratio
    turn_density := roundTo 2 turn_density
    longest_isolated_segment_km := roundTo 1 longest_isolated_km
    traffic_level := traffic_level
    penalties := penalties
    distance_km := roundTo 1 total_distance_km
    duration_hours := roundTo 2 total_duration_h }

/- ────────────────────────────────────────────────────────────────
   route_service.py
   ──────────────────────────────────────────────────────────────── -/

/-- Models `classify_road_quality`: road quality from highway prevalence.
Note: uses the route_service pattern (no motorway, no trunk) and
divides by the summed step distance, not the route distance field. -/
def classify_road_quality (route : Route) : String :=
  let steps := _extract_steps route
  let highway_dist :=
    steps.foldl
      (fun acc s =>
        if patternSearch SERVICE_HIGHWAY_WORDS s.combined then acc + s.distance else acc)
      0
  let total_dist : ℚ := steps.foldl (fun acc s => acc + s.distance) 0
  if total_dist ≤ 0 then "Average"
  else
    let ratio := highway_dist / total_dist
    if ratio ≥ 0.6 then "Excellent"
    else if ratio ≥ 0.3 then "Good"
    else "Average"

/-- Models `extract_navigation_steps`: lean projection of the OSRM steps; in
this typed model it rebuilds each step from exactly the fields the
Python code copies. -/
def extract_navigation_steps (route : Route) : List Step :=
  (_extract_steps route).map
    (fun s =>
      { distance := s.distance
        duration := s.duration
        name := s.name
        ref := s.ref
        maneuver :=
          { type := s.maneuver.type
            modifier := s.maneuver.modifier
            location := s.maneuver.location } })

/-- Insertion-ordered update of the `road_distances` dict
(`road_distances[name] = road_distances.get(name, 0) + d`): a Python
dict keeps first-insertion key order. -/
def addRoad : List (String × ℚ) → String → ℚ → List (String × ℚ)
  | [], name, d => [(name, d)]
  | (n, x) :: rest, name, d =>
    if n = name then (n, x + d) :: rest
    else (n, x) :: addRoad rest name d

/-- The `road_distances` dict of `extract_road_summary`, as an
insertion-ordered association list. -/
def roadDistances (route : Route) : List (String × ℚ) :=
  (_extract_steps route).foldl
    (fun acc s =>
      let name := String.mk (pyStrip s.name.data)
      if name ≠ "" then addRoad acc name s.distance else acc)
    []

/-- Stable insert for a descending sort keyed by `key`: the new
element goes in front of the first element whose key is ≤ its own, so
earlier input elements precede later equal-key elements. -/
def insertDescBy {α : Type} (key : α → ℚ) (x : α) : List α → List α
  | [] => [x]
  | y :: ys => if key y ≤ key x then x :: y :: ys else y :: insertDescBy key x ys

/-- Python `sorted(..., key=key, reverse=True)` and
`list.sort(key=key, reverse=True)`: a stable descending sort.  Any
stable sort produces this unique output, so insertion sort models
CPython Timsort exactly. -/
def sortDescBy {α : Type} (key : α → ℚ) : List α → List α
  | [] => []
  | x :: xs => insertDescBy key x (sortDescBy key xs)

/-- Python `max(road_distances, key=road_distances.get)`: the first
key (in dict order) with maximal value; later elements replace the
running best only when strictly greater. -/
def maxKeyByValue : List (String × ℚ) → String
  | [] => ""
  | p :: rest => (rest.foldl (fun best q => if q.2 > best.2 then q else best) p).1

/-- Models `extract_road_summary`: most prominent road name of a route. -/
def extract_road_summary (route : Route) : String :=
  let road_distances := roadDistances route
  if road_distances = [] then "Local Roads"
  else
    match (sortDescBy (fun p => p.2) road_distances).find?
        (fun p => patternSearch SERVICE_HIGHWAY_WORDS p.1) with
    | some p => p.1
    | none => maxKeyByValue road_distances

/- ────────────────────────────────────────────────────────────────
   Exceptions and the external-call outcomes.
   ──────────────────────────────────────────────────────────────── -/

/-- The exception kinds that can cross `get_routes`:
`ValueError` and `RuntimeError` are raised by the services themselves;
`httpStatusError` models `httpx.HTTPStatusError` (from
`raise_for_status()` on a non-2xx response) and `transportError`
models `httpx.TransportError` — neither httpx class derives from
`ValueError` or `RuntimeError`. -/
inductive Exc where
  | valueError (msg : String)
  | runtimeError (msg : String)
  | httpStatusError (status : Nat)
  | transportError
deriving DecidableEq, Repr

/-- The `except` ladder of `route_endpoint`: `ValueError` → 422,
`RuntimeError` → 502, any other `Exception` → 500. -/
def handleExc : Exc → ℕ
  | .valueError _ => 422
  | .runtimeError _ => 502
  | .httpStatusError _ => 500
  | .transportError => 500

/-- HTTP status of a service outcome: 200 on success, otherwise the
status the exception ladder assigns. -/
def excStatus {α : Type} : Except Exc α → ℕ
  | .ok _ => 200
  | .error e => handleExc e

/-- Outcome of the single Nominatim request issued on a cache miss:
either the transport fails, or a response arrives with an HTTP status
and a parsed JSON body (a list of results, each carrying lat/lon). -/
inductive GeoResp where
  | transportFailure
  | response (status : Nat) (body : List (ℚ × ℚ))
deriving DecidableEq, Repr

/-- Outcome of the single OSRM request: transport failure, or a
response with an HTTP status and a JSON body holding the OSRM `code`,
`message` and `routes` fields. -/
inductive OsrmResp where
  | transportFailure
  | response (status : Nat) (code : String) (message : String) (routes : List Route)
deriving Repr

/-- The in-memory geocode cache (city name → coords), as an
association list; an insert shadows by consing in front. -/
def Cache : Type := List (String × (ℚ × ℚ))

/-- In httpx, `Response.raise_for_status()` raises unless the status is a
2xx success status. -/
def isSuccessStatus (status : Nat) : Prop :=
  200 ≤ status ∧ status < 300

instance (status : Nat) : Decidable (isSuccessStatus status) := by
  unfold isSuccessStatus; infer_instance

/-- Models `geocode`: cache lookup, else one Nominatim call; an empty result
list raises `ValueError`; `raise_for_status` / transport failures
raise httpx errors.  Returns the coordinate and the updated cache. -/
def geocode (cache : Cache) (resp : GeoResp) (place_name : String) :
    Except Exc ((ℚ × ℚ) × Cache) :=
  let key := normKey place_name
  match List.lookup key cache with
  | some c => .ok (c, cache)
  | none =>
    match resp with
    | .transportFailure => .error .transportError
    | .response status body =>
      if isSuccessStatus status then
        match body with
        | [] =>
          .error (.valueError
            ("Could not geocode " ++ place_name ++ ". Please check the city name."))
        | c :: _ => .ok (c, (key, c) :: cache)
      else .error (.httpStatusError status)

/-- Models `fetch_osrm_routes`: one OSRM call; `raise_for_status` / transport
failures raise httpx errors; a body whose `code` is not "Ok" raises
`RuntimeError`; otherwise the body routes are returned (uncapped). -/
def fetch_osrm_routes (resp : OsrmResp) : Except Exc (List Route) :=
  match resp with
  | .transportFailure => .error .transportError
  | .response status code message routes =>
    if isSuccessStatus status then
      if code ≠ "Ok" then .error (.runtimeError ("OSRM error: " ++ message))
      else .ok routes
    else .error (.httpStatusError status)

/- ────────────────────────────────────────────────────────────────
   get_routes pipeline.
   ──────────────────────────────────────────────────────────────── -/

/-- One entry of the `processed` list built by `get_routes`. -/
structure ProcessedRoute where
  id : String
  name : String
  distance_km : ℚ
  duration_minutes : ℚ
  safety_score : ℚ
  road_summary : String
  traffic_level : String
  road_quality : String
  geometry : Geometry
  steps : List Step
  route_summary_distance_km : ℚ
  route_summary_duration_hours : ℚ
  breakdown_highway_ratio : ℚ
  breakdown_turn_density : ℚ
  breakdown_longest_isolated_segment_km : ℚ
  breakdown_traffic_level : String
  breakdown_penalties : Penalties
deriving DecidableEq, Repr

/-- The dict `get_routes` appends for candidate `i` (0-based); the
`name` field is assigned only after sorting. -/
def processRoute (i : ℕ) (route : Route) (mode : String) : ProcessedRoute :=
  let safety_result := compute_safety route mode
  { id := "route_" ++ toString (i + 1)
    name := ""
    distance_km := safety_result.distance_km
    duration_minutes := roundTo 0 (route.duration / 60)
    safety_score := safety_result.score
    road_summary := extract_road_summary route
    traffic_level := safety_result.traffic_level
    road_quality := classify_road_quality route
    geometry := route.geometry
    steps := extract_navigation_steps route
    route_summary_distance_km := safety_result.distance_km
    route_summary_duration_hours := safety_result.duration_hours
    breakdown_highway_ratio := safety_result.highway_ratio
    breakdown_turn_density := safety_result.turn_density
    breakdown_longest_isolated_segment_km := safety_result.longest_isolated_segment_km
    breakdown_traffic_level := safety_result.traffic_level
    breakdown_penalties := safety_result.penalties }

/-- Step 3 of `get_routes`: score the first three raw routes in
provider order, assigning ids `route_1`, `route_2`, `route_3`. -/
def buildProcessed (raw_routes : List Route) (mode : String) : List ProcessedRoute :=
  (raw_routes.take 3).enum.map (fun p => processRoute p.1 p.2 mode)

/-- Step 4 of `get_routes`:
`processed.sort(key=lambda r: r["safety_score"], reverse=True)`. -/
def sortProcessed (l : List ProcessedRoute) : List ProcessedRoute :=
  sortDescBy (fun r => r.safety_score) l

/-- Step 5 of `get_routes`: positional labels after sorting. -/
def name_labels : List String :=
  ["Recommended Route", "Scenic Route", "Shortest Route"]

/-- Assign `name_labels[i] if i < len(name_labels) else f"Route {i+1}"`. -/
def assignNames (l : List ProcessedRoute) : List ProcessedRoute :=
  l.enum.map
    (fun p => { p.2 with name := name_labels.getD p.1 ("Route " ++ toString (p.1 + 1)) })

/-- Steps 3 to 5 of `get_routes` as one pure function of the raw
provider routes. -/
def processAndRank (raw_routes : List Route) (mode : String) : List ProcessedRoute :=
  assignNames (sortProcessed (buildProcessed raw_routes mode))

/-- The structured response assembled by `get_routes`. -/
structure RoutesResult where
  routes : List ProcessedRoute
  origin_coords : ℚ × ℚ
  destination_coords : ℚ × ℚ
  status : String

/-- Outcomes of the external calls a single `get_routes` run makes:
the geocoding outcome per queried name, and the routing outcome. -/
structure Env where
  geoResp : String → GeoResp
  osrmResp : OsrmResp

/-- Models `get_routes`: geocode both endpoints, fetch OSRM routes, fail on
an empty candidate list, then score, sort and label. -/
def get_routes (cache : Cache) (env : Env) (origin destination mode : String) :
    Except Exc RoutesResult := do
  let fromRes ← geocode cache (env.geoResp origin) origin
  let toRes ← geocode fromRes.2 (env.geoResp destination) destination
  let raw_routes ← fetch_osrm_routes env.osrmResp
  if raw_routes = [] then
    Except.error (Exc.runtimeError "No routes found between these locations.")
  else
    Except.ok
      { routes := processAndRank raw_routes mode
        origin_coords := fromRes.1
        destination_coords := toRes.1
        status := "success" }

/- ────────────────────────────────────────────────────────────────
   routers/route.py
   ──────────────────────────────────────────────────────────────── -/

/-- Models `route_endpoint`: input validation (422), then `get_routes` with
the exception ladder mapped to HTTP statuses.  `mode` is the request
field, whose pydantic default is "day"; the Python truthiness test
`if request.mode` sends an empty string to "day" as well. -/
def route_endpoint (cache : Cache) (env : Env) (origin destination mode : String) :
    Except ℕ RoutesResult :=
  if String.mk (pyStrip origin.data) = "" ∨ String.mk (pyStrip destination.data) = "" then
    .error 422
  else
    let m := if mode ≠ "" then String.mk (lowerStr (pyStrip mode.data)) else "day"
    if m ≠ "day" ∧ m ≠ "night" then .error 422
    else
      match get_routes cache env (String.mk (pyStrip origin.data))
          (String.mk (pyStrip destination.data)) m with
      | .ok r => .ok r
      | .error e => .error (handleExc e)

/-- HTTP status code produced by one call of the endpoint. -/
def endpointStatus (cache : Cache) (env : Env) (origin destination mode : String) : ℕ :=
  match route_endpoint cache env origin destination mode with
  | .ok _ => 200
  | .error n => n

/- ────────────────────────────────────────────────────────────────
   The pre-seeded geocode cache of route_service.py.
   ──────────────────────────────────────────────────────────────── -/

/-- Models `_SEED_CACHE`: common Indian cities pre-seeded at import time. -/
def _SEED_CACHE : Cache :=
  [("delhi", (28.6139, 77.2090)),
   ("new delhi", (28.6139, 77.2090)),
   ("mumbai", (19.0760, 72.8777)),
   ("bangalore", (12.9716, 77.5946)),
   ("bengaluru", (12.9716, 77.5946)),
   ("chennai", (13.0827, 80.2707)),
   ("kolkata", (22.5726, 88.3639)),
   ("hyderabad", (17.3850, 78.4867)),
   ("pune", (18.5204, 73.8567)),
   ("jaipur", (26.9124, 75.7873)),
   ("ahmedabad", (23.0225, 72.5714)),
   ("lucknow", (26.8467, 80.9462)),
   ("agra", (27.1767, 78.0081)),
   ("varanasi", (25.3176, 82.9739)),
   ("goa", (15.2993, 74.1240)),
   ("udaipur", (24.5854, 73.7125)),
   ("jodhpur", (26.2389, 73.0243)),
   ("amritsar", (31.6340, 74.8723)),
   ("shimla", (31.1048, 77.1734)),
   ("manali", (32.2396, 77.1887)),
   ("rishikesh", (30.0869, 78.2676)),
   ("haridwar", (29.9457, 78.1642)),
   ("mysore", (12.2958, 76.6394)),
   ("mysuru", (12.2958, 76.6394)),
   ("kochi", (9.9312, 76.2673)),
   ("thiruvananthapuram", (8.5241, 76.9366)),
   ("chandigarh", (30.7333, 76.7794)),
   ("indore", (22.7196, 75.8577)),
   ("bhopal", (23.2599, 77.4126)),
   ("nagpur", (21.1458, 79.0882)),
   ("surat", (21.1702, 72.8311)),
   ("coimbatore", (11.0168, 76.9558)),
   ("visakhapatnam", (17.6868, 83.2185)),
   ("patna", (25.6093, 85.1376)),
   ("ranchi", (23.3441, 85.3096)),
   ("dehradun", (30.3165, 78.0322)),
   ("guwahati", (26.1445, 91.7362)),
   ("bhubaneswar", (20.2961, 85.8245)),
   ("trivandrum", (8.5241, 76.9366)),
   ("madurai", (9.9252, 78.1198)),
   ("jaisalmer", (26.9157, 70.9083)),
   ("pushkar", (26.4900, 74.5513)),
   ("mathura", (27.4924, 77.6737)),
   ("leh", (34.1526, 77.5771)),
   ("srinagar", (34.0837, 74.7973)),
   ("darjeeling", (27.0360, 88.2627)),
   ("gangtok", (27.3389, 88.6065)),
   ("ooty", (11.4102, 76.6950)),
   ("kodaikanal", (10.2381, 77.4892)),
   ("mount abu", (24.5926, 72.7156)),
   ("nainital", (29.3803, 79.4636)),
   ("mussoorie", (30.4598, 78.0644))]

/- ────────────────────────────────────────────────────────────────
   Concrete inputs used by the example-based theorems.
   ──────────────────────────────────────────────────────────────── -/

/-- Build a step with the fields relevant to scoring. -/
def mkStep (mtype name ref : String) (dist : ℚ) : Step :=
  { distance := dist
    duration := 0
    name := name
    ref := ref
    maneuver := { type := mtype, modifier := "", location := [] } }

/-- Sum of the step distances of a route (the denominator of
`classify_road_quality` and the quantity `_compute_isolation` adds up
on an all-unnamed route). -/
def sumStepDist (route : Route) : ℚ :=
  ((_extract_steps route).map (fun s => s.distance)).sum

/-- The spec scenario route: 520,000 m, 28,800 s, highway ratio 0.8
(416,000 m on NH 44), 3 non-trivial turns, one unnamed 10,000 m run. -/
def scenarioRoute : Route :=
  { distance := 520000
    duration := 28800
    legs :=
      [[mkStep "depart" "NH 44" "" 100000,
        mkStep "turn" "NH 44" "" 316000,
        mkStep "turn" "" "" 10000,
        mkStep "turn" "Station Road" "" 94000,
        mkStep "arrive" "Station Road" "" 0]]
    geometry := { type := "LineString", coordinates := [] } }

/-- A route that runs entirely on a road named "motorway": the engine
pattern matches it (breakdown highway_ratio 1.0) but the
route_service pattern does not. -/
def motorwayRoute : Route :=
  { distance := 1000
    duration := 60
    legs := [[mkStep "depart" "motorway" "" 1000]]
    geometry := { type := "LineString", coordinates := [] } }

/-- A route whose steps are all unnamed (blank name and ref). -/
def unnamedRoute : Route :=
  { distance := 7000
    duration := 600
    legs := [[mkStep "depart" "" "" 3000, mkStep "turn" " " "" 2500],
             [mkStep "arrive" "" "  " 1500]]
    geometry := { type := "LineString", coordinates := [] } }

/-- Environment in which every external geocoding call fails at the
transport level. -/
def geoFailEnv : Env :=
  { geoResp := fun _ => GeoResp.transportFailure
    osrmResp := OsrmResp.transportFailure }

/-- Environment with working (cached) geocoding and an OSRM call that
fails at the transport level. -/
def osrmFailEnv : Env :=
  { geoResp := fun _ => GeoResp.response 200 [(0, 0)]
    osrmResp := OsrmResp.transportFailure }

/-- A two-entry cache used by the error-path witnesses. -/
def cacheW : Cache :=
  [("a", (0, 0)), ("b", (1, 1))]

/-- Environment whose OSRM response arrives with HTTP 200 but an OSRM
body code that is not "Ok". -/
def envOsrmNotOk : Env :=
  { geoResp := fun _ => GeoResp.transportFailure
    osrmResp := OsrmResp.response 200 "Error" "boom" [] }

/- ────────────────────────────────────────────────────────────────
   Projection lemmas for the scoring pipeline.
   ──────────────────────────────────────────────────────────────── -/

theorem computePenalties_road_type (hr td iso : ℚ) (tl : String) (dh : ℚ) (mode : String) :
    (computePenalties hr td iso tl dh mode).road_type =
      if mode = "night" ∧ road_type_penalty hr < 0
      then night_scale_road (road_type_penalty hr)
      else road_type_penalty hr := rfl

theorem computePenalties_turn_density (hr td iso : ℚ) (tl : String) (dh : ℚ) (mode : String) :
    (computePenalties hr td iso tl dh mode).turn_density = turn_density_penalty td := rfl

theorem computePenalties_isolation (hr td iso : ℚ) (tl : String) (dh : ℚ) (mode : String) :
    (computePenalties hr td iso tl dh mode).isolation =
      if mode = "night"
      then night_scale_iso (isolation_penalty_day iso)
      else isolation_penalty_day iso := rfl

theorem computePenalties_duration (hr td iso : ℚ) (tl : String) (dh : ℚ) (mode : String) :
    (computePenalties hr td iso tl dh mode).duration = duration_penalty dh := rfl

theorem computePenalties_traffic (hr td iso : ℚ) (tl : String) (dh : ℚ) (mode : String) :
    (computePenalties hr td iso tl dh mode).traffic = traffic_penalty tl := rfl

theorem compute_safety_penalties (route : Route) (mode : String) :
    (compute_safety route mode).penalties =
      computePenalties
        (_compute_highway_ratio (_extract_steps route) route.distance)
        (_compute_turn_density (_extract_steps route) (route.distance / 1000))
        (_compute_isolation (_extract_steps route))
        (_classify_traffic route.duration route.distance)
        (route.duration / 3600) mode := rfl

theorem compute_safety_score (route : Route) (mode : String) :
    (compute_safety route mode).score =
      ((max 10 (100 + (compute_safety route mode).penalties.total) : ℤ) : ℚ) / 10 := rfl

/- ────────────────────────────────────────────────────────────────
   Value ranges of the individual penalties.
   ──────────────────────────────────────────────────────────────── -/

theorem road_type_penalty_cases (r : ℚ) :
    road_type_penalty r = 0 ∨ road_type_penalty r = -5 ∨ road_type_penalty r = -10 := by
  unfold road_type_penalty; split_ifs <;> simp

theorem turn_density_penalty_cases (r : ℚ) :
    turn_density_penalty r = 0 ∨ turn_density_penalty r = -5 ∨ turn_density_penalty r = -10 := by
  unfold turn_density_penalty; split_ifs <;> simp

theorem isolation_penalty_day_cases (r : ℚ) :
    isolation_penalty_day r = 0 ∨ isolation_penalty_day r = -7 ∨ isolation_penalty_day r = -15 := by
  unfold isolation_penalty_day; split_ifs <;> simp

theorem duration_penalty_cases (r : ℚ) :
    duration_penalty r = 0 ∨ duration_penalty r = -5 ∨ duration_penalty r = -10 := by
  unfold duration_penalty; split_ifs <;> simp

theorem traffic_penalty_cases (s : String) :
    traffic_penalty s = 0 ∨ traffic_penalty s = -5 ∨ traffic_penalty s = -10 := by
  unfold traffic_penalty; split_ifs <;> simp

theorem road_type_final_bounds (hr : ℚ) (mode : String) : ∀ td iso tl dh,
    -13 ≤ (computePenalties hr td iso tl dh mode).road_type
    ∧ (computePenalties hr td iso tl dh mode).road_type ≤ 0 := by
  intro td iso tl dh
  rw [computePenalties_road_type]
  rcases road_type_penalty_cases hr with h | h | h <;>
    rw [h] <;> split_ifs <;> simp [night_scale_road] <;> decide

theorem isolation_final_bounds (iso : ℚ) (mode : String) : ∀ hr td tl dh,
    -22 ≤ (computePenalties hr td iso tl dh mode).isolation
    ∧ (computePenalties hr td iso tl dh mode).isolation ≤ 0 := by
  intro hr td tl dh
  rw [computePenalties_isolation]
  rcases isolation_penalty_day_cases iso with h | h | h <;>
    rw [h] <;> split_ifs <;> simp [night_scale_iso] <;> decide

theorem penalties_total_bounds (hr td iso : ℚ) (tl : String) (dh : ℚ) (mode : String) :
    -65 ≤ (computePenalties hr td iso tl dh mode).total
    ∧ (computePenalties hr td iso tl dh mode).total ≤ 0 := by
  have hroad := road_type_final_bounds hr mode td iso tl dh
  have hiso := isolation_final_bounds iso mode hr td tl dh
  have hturn : -10 ≤ (computePenalties hr td iso tl dh mode).turn_density
      ∧ (computePenalties hr td iso tl dh mode).turn_density ≤ 0 := by
    rw [computePenalties_turn_density]
    rcases turn_density_penalty_cases td with h | h | h <;> rw [h] <;> decide
  have hdur : -10 ≤ (computePenalties hr td iso tl dh mode).duration
      ∧ (computePenalties hr td iso tl dh mode).duration ≤ 0 := by
    rw [computePenalties_duration]
    rcases duration_penalty_cases dh with h | h | h <;> rw [h] <;> decide
  have htraf : -10 ≤ (computePenalties hr td iso tl dh mode).traffic
      ∧ (computePenalties hr td iso tl dh mode).traffic ≤ 0 := by
    rw [computePenalties_traffic]
    rcases traffic_penalty_cases tl with h | h | h <;> rw [h] <;> decide
  unfold Penalties.total
  constructor <;>
    linarith [hroad.1, hroad.2, hiso.1, hiso.2, hturn.1, hturn.2,
      hdur.1, hdur.2, htraf.1, htraf.2]

theorem compute_safety_total_bounds (route : Route) (mode : String) :
    -65 ≤ (compute_safety route mode).penalties.total
    ∧ (compute_safety route mode).penalties.total ≤ 0 := by
  rw [compute_safety_penalties]
  exact penalties_total_bounds _ _ _ _ _ _

/- ────────────────────────────────────────────────────────────────
   C1 and C9: range of the safety score.
   ──────────────────────────────────────────────────────────────── -/

/-- C1: for every route candidate and every mode, the safety score
returned by compute_safety lies in the interval [1.0, 10.0]. -/
theorem safety_score_in_range (route : Route) (mode : String) :
    1 ≤ (compute_safety route mode).score ∧ (compute_safety route mode).score ≤ 10 := by
  obtain ⟨hlo, hhi⟩ := compute_safety_total_bounds route mode
  rw [compute_safety_score]
  set t := (compute_safety route mode).penalties.total with ht
  constructor
  · have h10 : (10 : ℤ) ≤ max 10 (100 + t) := le_max_left _ _
    have h10q : (10 : ℚ) ≤ ((max 10 (100 + t) : ℤ) : ℚ) := by exact_mod_cast h10
    linarith
  · have h100 : max 10 (100 + t) ≤ 100 := max_le (by norm_num) (by linarith)
    have h100q : ((max 10 (100 + t) : ℤ) : ℚ) ≤ 100 := by exact_mod_cast h100
    linarith

/-- C9: for every route candidate and every mode, the raw score
100 + sum(penalties) is at least 35, so the hard floor max(10, raw)
never activates and the returned safety score is at least 3.5. -/
theorem raw_score_floor_never_activates (route : Route) (mode : String) :
    35 ≤ 100 + (compute_safety route mode).penalties.total
    ∧ max 10 (100 + (compute_safety route mode).penalties.total)
        = 100 + (compute_safety route mode).penalties.total
    ∧ (7/2 : ℚ) ≤ (compute_safety route mode).score := by
  obtain ⟨hlo, hhi⟩ := compute_safety_total_bounds route mode
  have h35 : (35 : ℤ) ≤ 100 + (compute_safety route mode).penalties.total := by linarith
  have hmax : max 10 (100 + (compute_safety route mode).penalties.total)
      = 100 + (compute_safety route mode).penalties.total :=
    max_eq_right (by linarith)
  refine ⟨h35, hmax, ?_⟩
  rw [compute_safety_score, hmax]
  have h35q : (35 : ℚ) ≤ ((100 + (compute_safety route mode).penalties.total : ℤ) : ℚ) := by
    exact_mod_cast h35
  linarith

/- ────────────────────────────────────────────────────────────────
   C6: night mode never weakens the isolation and rural penalties.
   ──────────────────────────────────────────────────────────────── -/

theorem computePenalties_night_iso_mag (hr td iso : ℚ) (tl : String) (dh : ℚ) :
    |(computePenalties hr td iso tl dh "day").isolation|
      ≤ |(computePenalties hr td iso tl dh "night").isolation| := by
  rw [computePenalties_isolation, computePenalties_isolation]
  rcases isolation_penalty_day_cases iso with h | h | h <;>
    simp [h, night_scale_iso] <;> decide

theorem computePenalties_night_road_mag (hr td iso : ℚ) (tl : String) (dh : ℚ)
    (hneg : (computePenalties hr td iso tl dh "day").road_type < 0) :
    |(computePenalties hr td iso tl dh "day").road_type|
      ≤ |(computePenalties hr td iso tl dh "night").road_type| := by
  rw [computePenalties_road_type] at hneg ⊢
  rw [computePenalties_road_type]
  rcases road_type_penalty_cases hr with h | h | h <;>
    rw [h] at hneg ⊢ <;> simp_all [night_scale_road] <;> decide

/-- C6: for every route candidate, the magnitude of the isolation
penalty in night mode is at least its day-mode magnitude, and when
the day-mode road_type penalty is negative, the magnitude of the
night-mode road_type penalty is at least the day-mode magnitude. -/
theorem night_mode_penalty_magnitudes (route : Route) :
    |(compute_safety route "day").penalties.isolation|
        ≤ |(compute_safety route "night").penalties.isolation|
    ∧ ((compute_safety route "day").penalties.road_type < 0 →
        |(compute_safety route "day").penalties.road_type|
          ≤ |(compute_safety route "night").penalties.road_type|) := by
  rw [compute_safety_penalties route "day", compute_safety_penalties route "night"]
  exact ⟨computePenalties_night_iso_mag _ _ _ _ _,
    fun hneg => computePenalties_night_road_mag _ _ _ _ _ hneg⟩

/- ────────────────────────────────────────────────────────────────
   C5: the 520 km / 8 h scenario.
   ──────────────────────────────────────────────────────────────── -/

theorem compute_safety_traffic_level (route : Route) (mode : String) :
    (compute_safety route mode).traffic_level =
      _classify_traffic route.duration route.distance := rfl

theorem compute_safety_highway_ratio (route : Route) (mode : String) :
    (compute_safety route mode).highway_ratio =
      roundTo 3 (_compute_highway_ratio (_extract_steps route) route.distance) := rfl

theorem scenario_penalties_eq :
    (compute_safety scenarioRoute "day").penalties =
      { road_type := 0, turn_density := 0, isolation := 0, duration := -5, traffic := -5 } := by
  rw [compute_safety_penalties]
  norm_num +decide [scenarioRoute, mkStep, _extract_steps, computePenalties,
    _compute_highway_ratio, _compute_turn_density, _compute_isolation, isoLoop,
    _classify_traffic, road_type_penalty, turn_density_penalty, isolation_penalty_day,
    duration_penalty, traffic_penalty, Step.combined, List.countP, List.countP.go,
    List.foldl]

theorem scenario_traffic_moderate :
    (compute_safety scenarioRoute "day").traffic_level = "Moderate" := by
  rw [compute_safety_traffic_level]
  norm_num [scenarioRoute, _classify_traffic]

theorem scenario_score_eq_nine :
    (compute_safety scenarioRoute "day").score = 9 := by
  rw [compute_safety_score, scenario_penalties_eq]
  have hmax : max (10 : ℤ) (100 + Penalties.total
      { road_type := 0, turn_density := 0, isolation := 0, duration := -5, traffic := -5 }) = 90 := by
    decide
  rw [hmax]
  norm_num

/-- C5 counterexample: on the literal scenario route (520,000 m,
28,800 s, ratio 0.8, 3 turns, 10 km isolated, day mode) the duration
penalty is -5 because 8 hours exceeds the 6-hour threshold, so the
raw score is 90 and the safety score is 9.0, not 9.5 as claimed. -/
theorem scenario_score_not_nine_point_five :
    (compute_safety scenarioRoute "day").penalties.duration = -5
    ∧ (compute_safety scenarioRoute "day").score = 9
    ∧ (compute_safety scenarioRoute "day").score ≠ 19/2 := by
  refine ⟨?_, scenario_score_eq_nine, ?_⟩
  · rw [scenario_penalties_eq]
  · rw [scenario_score_eq_nine]; norm_num

/-- C5 amended: on the scenario route in day mode, traffic is
Moderate and the penalties are road_type 0, turn_density 0,
isolation 0, duration -5, traffic -5, so raw = 90 and the safety
score is 9.0. -/
theorem scenario_day_mode_result :
    (compute_safety scenarioRoute "day").traffic_level = "Moderate"
    ∧ (compute_safety scenarioRoute "day").penalties =
        { road_type := 0, turn_density := 0, isolation := 0, duration := -5, traffic := -5 }
    ∧ 100 + (compute_safety scenarioRoute "day").penalties.total = 90
    ∧ (compute_safety scenarioRoute "day").score = 9 := by
  refine ⟨scenario_traffic_moderate, scenario_penalties_eq, ?_, scenario_score_eq_nine⟩
  rw [scenario_penalties_eq]
  decide

/- ────────────────────────────────────────────────────────────────
   C4: road quality versus the breakdown highway ratio.
   ──────────────────────────────────────────────────────────────── -/

/-- C4 counterexample: the motorway route has breakdown highway_ratio
1.0 (the engine pattern matches "motorway"), yet classify_road_quality
reports "Average" because its own pattern has no motorway alternative,
so road_quality is not determined by the breakdown ratio. -/
theorem motorway_route_quality_mismatch :
    (compute_safety motorwayRoute "day").highway_ratio = 1
    ∧ (6/10 : ℚ) ≤ (compute_safety motorwayRoute "day").highway_ratio
    ∧ classify_road_quality motorwayRoute = "Average"
    ∧ classify_road_quality motorwayRoute ≠ "Excellent" := by
  have hratio : (compute_safety motorwayRoute "day").highway_ratio = 1 := by
    rw [compute_safety_highway_ratio]
    norm_num +decide [motorwayRoute, mkStep, _extract_steps, _compute_highway_ratio,
      Step.combined, List.foldl, roundTo, pyRound]
  have hq : classify_road_quality motorwayRoute = "Average" := by
    norm_num +decide [motorwayRoute, mkStep, _extract_steps, classify_road_quality,
      Step.combined, List.foldl]
  refine ⟨hratio, by rw [hratio]; norm_num, hq, by rw [hq]; decide⟩

theorem foldl_highway_congr (l : List Step)
    (h : ∀ s ∈ l,
      patternSearch ENGINE_HIGHWAY_WORDS s.combined
        = patternSearch SERVICE_HIGHWAY_WORDS s.combined) :
    ∀ a : ℚ,
      l.foldl
        (fun acc s =>
          if patternSearch SERVICE_HIGHWAY_WORDS s.combined then acc + s.distance else acc) a
      = l.foldl
        (fun acc s =>
          if patternSearch ENGINE_HIGHWAY_WORDS s.combined then acc + s.distance else acc) a := by
  induction l with
  | nil => intro a; rfl
  | cons s rest ih =>
    intro a
    simp only [List.foldl_cons]
    rw [h s (List.mem_cons_self s rest)]
    exact ih (fun t ht => h t (List.mem_cons_of_mem s ht)) _

theorem foldl_add_dist (l : List Step) : ∀ a : ℚ,
    l.foldl (fun acc s => acc + s.distance) a = a + (l.map (fun s => s.distance)).sum := by
  induction l with
  | nil => intro a; simp
  | cons s rest ih =>
    intro a
    simp only [List.foldl_cons, List.map_cons, List.sum_cons, ih]
    ring

/-- C4 amended: road_quality is computed from the ratio of
service-pattern highway step distance to summed step distance, with
thresholds 0.6 and 0.3.  When every step matches the engine pattern
and the service pattern alike and the route distance field equals the
summed step distance (positive), this coincides with the thresholds
applied to the breakdown highway_ratio metric. -/
theorem road_quality_matches_engine_ratio (route : Route)
    (hs : ∀ s ∈ _extract_steps route,
      patternSearch ENGINE_HIGHWAY_WORDS s.combined
        = patternSearch SERVICE_HIGHWAY_WORDS s.combined)
    (hd : route.distance = sumStepDist route)
    (hpos : 0 < route.distance) :
    classify_road_quality route =
      if _compute_highway_ratio (_extract_steps route) route.distance ≥ 0.6 then "Excellent"
      else if _compute_highway_ratio (_extract_steps route) route.distance ≥ 0.3 then "Good"
      else "Average" := by
  have hsum : ((_extract_steps route).map (fun s => s.distance)).sum = route.distance :=
    hd.symm
  have hns : ¬ route.distance ≤ 0 := not_le.mpr hpos
  simp only [classify_road_quality, _compute_highway_ratio]
  rw [foldl_highway_congr (_extract_steps route) hs 0, foldl_add_dist, zero_add, hsum]
  simp only [hns, if_neg hns, if_false]

/-- Witness for the amended C4 theorem at the scenario route. -/
theorem road_quality_matches_engine_ratio_witness :
    classify_road_quality scenarioRoute =
      if _compute_highway_ratio (_extract_steps scenarioRoute) scenarioRoute.distance ≥ 0.6
      then "Excellent"
      else if _compute_highway_ratio (_extract_steps scenarioRoute) scenarioRoute.distance ≥ 0.3
      then "Good"
      else "Average" :=
  road_quality_matches_engine_ratio scenarioRoute
    (by decide)
    (by norm_num [scenarioRoute, sumStepDist, _extract_steps, mkStep, List.foldl])
    (by norm_num [scenarioRoute])

/- ────────────────────────────────────────────────────────────────
   C8: isolation of an all-unnamed route.
   ──────────────────────────────────────────────────────────────── -/

theorem isoLoop_all_unnamed (l : List Step)
    (h : ∀ s ∈ l, pyStrip s.name.data = [] ∧ pyStrip s.ref.data = []) :
    ∀ run longest : ℚ,
      isoLoop l run longest =
        if run + (l.map (fun s => s.distance)).sum > longest
        then run + (l.map (fun s => s.distance)).sum
        else longest := by
  induction l with
  | nil => intro run longest; simp [isoLoop]
  | cons s rest ih =>
    intro run longest
    have hs := h s (List.mem_cons_self s rest)
    rw [List.map_cons, List.sum_cons]
    simp only [isoLoop, hs, and_self, if_true]
    rw [ih (fun t ht => h t (List.mem_cons_of_mem s ht))]
    rw [add_assoc]

/-- C8: a route all of whose steps have blank (stripped) name and
ref — including the trailing run, which the final flush folds into
the running maximum — yields a longest isolated segment equal to the
total route distance in kilometres (step distances are non-negative
and the distance field agrees with the summed step distances). -/
theorem all_unnamed_route_isolation (route : Route)
    (h : ∀ s ∈ _extract_steps route, pyStrip s.name.data = [] ∧ pyStrip s.ref.data = [])
    (hnn : ∀ s ∈ _extract_steps route, 0 ≤ s.distance)
    (hd : route.distance = sumStepDist route) :
    _compute_isolation (_extract_steps route) = route.distance / 1000 := by
  unfold _compute_isolation
  rw [isoLoop_all_unnamed _ h 0 0, zero_add]
  have hsum : 0 ≤ ((_extract_steps route).map (fun s => s.distance)).sum := by
    apply List.sum_nonneg
    intro x hx
    rcases List.mem_map.mp hx with ⟨t, ht, rfl⟩
    exact hnn t ht
  split_ifs with hc
  · rw [hd]; rfl
  · have hz : ((_extract_steps route).map (fun s => s.distance)).sum = 0 :=
      le_antisymm (not_lt.mp hc) hsum
    have hz' : route.distance = 0 := by rw [hd]; exact hz
    rw [hz']

/-- Witness for C8 at a concrete three-step all-unnamed route. -/
theorem all_unnamed_route_isolation_witness :
    _compute_isolation (_extract_steps unnamedRoute) = unnamedRoute.distance / 1000 :=
  all_unnamed_route_isolation unnamedRoute
    (by decide)
    (by
      simp only [unnamedRoute, mkStep, _extract_steps, List.foldl, List.nil_append,
        List.append_nil, List.forall_mem_cons, List.forall_mem_nil]
      norm_num)
    (by
      simp only [unnamedRoute, mkStep, sumStepDist, _extract_steps, List.foldl,
        List.nil_append, List.append_nil, List.map_cons, List.map_nil, List.sum_cons,
        List.sum_nil]
      norm_num)

/- ────────────────────────────────────────────────────────────────
   Stable descending sort: order and stability lemmas.
   ──────────────────────────────────────────────────────────────── -/

theorem insertDescBy_perm {α : Type} (key : α → ℚ) (x : α) (l : List α) :
    (insertDescBy key x l).Perm (x :: l) := by
  induction l with
  | nil => simp [insertDescBy]
  | cons y ys ih =>
    simp only [insertDescBy]
    split_ifs with hyx
    · exact List.Perm.refl _
    · exact (ih.cons y).trans (List.Perm.swap x y ys)

theorem sortDescBy_perm {α : Type} (key : α → ℚ) (l : List α) :
    (sortDescBy key l).Perm l := by
  induction l with
  | nil => simp [sortDescBy]
  | cons x xs ih =>
    simp only [sortDescBy]
    exact (insertDescBy_perm key x (sortDescBy key xs)).trans (ih.cons x)

theorem insertDescBy_pairwise {α : Type} (key : α → ℚ) (x : α) (l : List α)
    (hl : l.Pairwise (fun a b => key b ≤ key a)) :
    (insertDescBy key x l).Pairwise (fun a b => key b ≤ key a) := by
  induction l with
  | nil => simp [insertDescBy]
  | cons y ys ih =>
    rcases List.pairwise_cons.mp hl with ⟨hy, hys⟩
    simp only [insertDescBy]
    split_ifs with hyx
    · refine List.pairwise_cons.mpr ⟨?_, hl⟩
      intro z hz
      rcases List.mem_cons.mp hz with rfl | hz'
      · exact hyx
      · exact le_trans (hy z hz') hyx
    · refine List.pairwise_cons.mpr ⟨?_, ih hys⟩
      intro z hz
      have hmem := (insertDescBy_perm key x ys).mem_iff.mp hz
      rcases List.mem_cons.mp hmem with rfl | hz'
      · exact le_of_lt (not_le.mp hyx)
      · exact hy z hz'

theorem sortDescBy_pairwise {α : Type} (key : α → ℚ) (l : List α) :
    (sortDescBy key l).Pairwise (fun a b => key b ≤ key a) := by
  induction l with
  | nil => simp [sortDescBy]
  | cons x xs ih =>
    simp only [sortDescBy]
    exact insertDescBy_pairwise key x _ ih

theorem filter_insertDescBy {α : Type} (key : α → ℚ) (x : α) (l : List α) (s : ℚ) :
    (insertDescBy key x l).filter (fun a => decide (key a = s))
      = if key x = s then x :: l.filter (fun a => decide (key a = s))
        else l.filter (fun a => decide (key a = s)) := by
  induction l with
  | nil =>
    by_cases hx : key x = s <;> simp [insertDescBy, List.filter_cons, hx]
  | cons y ys ih =>
    by_cases hyx : key y ≤ key x
    · have hins : insertDescBy key x (y :: ys) = x :: y :: ys := by
        simp [insertDescBy, hyx]
      rw [hins]
      by_cases hx : key x = s
      · rw [if_pos hx]
        simp [List.filter_cons, hx]
      · rw [if_neg hx]
        simp [List.filter_cons, hx]
    · have hins : insertDescBy key x (y :: ys) = y :: insertDescBy key x ys := by
        simp [insertDescBy, hyx]
      rw [hins]
      by_cases hx : key x = s
      · rw [if_pos hx]
        rw [if_pos hx] at ih
        have hy : ¬ (key y = s) := by
          have hlt : key x < key y := not_le.mp hyx
          rw [hx] at hlt
          exact ne_of_gt hlt
        simp [List.filter_cons, hy, ih]
      · rw [if_neg hx]
        rw [if_neg hx] at ih
        simp [List.filter_cons, ih]

theorem filter_sortDescBy {α : Type} (key : α → ℚ) (l : List α) (s : ℚ) :
    (sortDescBy key l).filter (fun a => decide (key a = s))
      = l.filter (fun a => decide (key a = s)) := by
  induction l with
  | nil => rfl
  | cons x xs ih =>
    simp only [sortDescBy]
    rw [filter_insertDescBy]
    by_cases hx : key x = s <;> simp [List.filter_cons, hx, ih]

/- ────────────────────────────────────────────────────────────────
   C7: ranking is descending and stable.
   ──────────────────────────────────────────────────────────────── -/

/-- C7: the ranking step returns the scored candidates in
non-increasing safety_score order, and candidates with equal
safety_score keep their input relative order (the filter by any given
score value is unchanged). -/
theorem ranking_descending_and_stable (l : List ProcessedRoute) :
    (sortProcessed l).Pairwise (fun a b => b.safety_score ≤ a.safety_score)
    ∧ ∀ s : ℚ,
        (sortProcessed l).filter (fun r => decide (r.safety_score = s))
          = l.filter (fun r => decide (r.safety_score = s)) := by
  constructor
  · exact sortDescBy_pairwise (fun r => r.safety_score) l
  · intro s
    exact filter_sortDescBy (fun r => r.safety_score) l s

/- ────────────────────────────────────────────────────────────────
   C10: ids name the original provider position.
   ──────────────────────────────────────────────────────────────── -/

theorem assignNames_map_id (l : List ProcessedRoute) :
    (assignNames l).map (fun r => r.id) = l.map (fun r => r.id) := by
  unfold assignNames
  rw [List.map_map]
  have h1 : ((fun r : ProcessedRoute => r.id) ∘
      (fun p : ℕ × ProcessedRoute =>
        { p.2 with name := name_labels.getD p.1 ("Route " ++ toString (p.1 + 1)) }))
      = ((fun r : ProcessedRoute => r.id) ∘ Prod.snd) := rfl
  rw [h1, ← List.map_map, List.enum_map_snd]

theorem mem_assignNames (l : List ProcessedRoute) (r : ProcessedRoute)
    (h : r ∈ assignNames l) :
    ∃ r' ∈ l, ∃ nm : String, r = { r' with name := nm } := by
  unfold assignNames at h
  rcases List.mem_map.mp h with ⟨p, hp, rfl⟩
  refine ⟨p.2, ?_, _, rfl⟩
  have := List.mem_map_of_mem Prod.snd hp
  rwa [List.enum_map_snd] at this

theorem mem_buildProcessed (raw_routes : List Route) (mode : String) (r : ProcessedRoute)
    (h : r ∈ buildProcessed raw_routes mode) :
    ∃ i route, i < min raw_routes.length 3 ∧ raw_routes[i]? = some route
      ∧ r = processRoute i route mode := by
  unfold buildProcessed at h
  rcases List.mem_map.mp h with ⟨p, hp, rfl⟩
  have hget := List.mem_enum_iff_getElem?.mp hp
  have hlt : p.1 < min raw_routes.length 3 := by
    have hlen : p.1 < (raw_routes.take 3).length := by
      have := List.getElem?_eq_some_iff.mp hget
      exact this.1
    rw [List.length_take, Nat.min_comm] at hlen
    exact hlen
  refine ⟨p.1, p.2, hlt, ?_, rfl⟩
  rw [List.getElem?_take] at hget
  by_cases h3 : p.1 < 3
  · rwa [if_pos h3] at hget
  · rw [if_neg h3] at hget
    exact absurd hget (by simp)

theorem buildProcessed_map_id (raw_routes : List Route) (mode : String) :
    (buildProcessed raw_routes mode).map (fun r => r.id)
      = (List.range (min raw_routes.length 3)).map
          (fun i => "route_" ++ toString (i + 1)) := by
  unfold buildProcessed
  rw [List.map_map]
  have h1 : ((fun r : ProcessedRoute => r.id) ∘
      (fun p : ℕ × Route => processRoute p.1 p.2 mode))
      = ((fun i : ℕ => "route_" ++ toString (i + 1)) ∘ Prod.fst) := rfl
  rw [h1, ← List.map_map, List.enum_map_fst, List.length_take, Nat.min_comm]

theorem processRoute_name (i : ℕ) (route : Route) (mode : String) :
    (processRoute i route mode).name = "" := rfl

theorem setName_twice (p : ProcessedRoute) (a b : String) :
    ({ ({ p with name := a } : ProcessedRoute) with name := b } : ProcessedRoute)
      = { p with name := b } := rfl

theorem setName_self (p : ProcessedRoute) (h : p.name = "") :
    ({ p with name := "" } : ProcessedRoute) = p := by
  cases p
  simp_all

/-- C10: when the provider yields at least one candidate, the ids of
the returned routes are a permutation of route_1 … route_k for
k = min(number of candidates, 3), and each returned route is, apart
from its label, exactly the processed form of the original candidate
its id points at. -/
theorem route_ids_identify_original_position (raw_routes : List Route) (mode : String)
    (hpos : 0 < raw_routes.length) :
    ((processAndRank raw_routes mode).map (fun r => r.id)).Perm
        ((List.range (min raw_routes.length 3)).map (fun i => "route_" ++ toString (i + 1)))
    ∧ ∀ r ∈ processAndRank raw_routes mode,
        ∃ i route, i < min raw_routes.length 3 ∧ raw_routes[i]? = some route
          ∧ r.id = "route_" ++ toString (i + 1)
          ∧ ({ r with name := "" } : ProcessedRoute) = processRoute i route mode := by
  constructor
  · unfold processAndRank
    rw [assignNames_map_id]
    have hperm :=
      (sortDescBy_perm (fun r => r.safety_score) (buildProcessed raw_routes mode)).map
        (fun r => r.id)
    rw [buildProcessed_map_id] at hperm
    exact hperm
  · intro r hr
    obtain ⟨r', hr', nm, rfl⟩ := mem_assignNames _ r hr
    have hr'sort : r' ∈ sortDescBy (fun r => r.safety_score) (buildProcessed raw_routes mode) :=
      hr'
    have hr'' : r' ∈ buildProcessed raw_routes mode :=
      (sortDescBy_perm (fun r => r.safety_score) (buildProcessed raw_routes mode)).subset hr'sort
    obtain ⟨i, route, hik, hget, rfl⟩ := mem_buildProcessed _ _ _ hr''
    refine ⟨i, route, hik, hget, rfl, ?_⟩
    rw [setName_twice]
    exact setName_self _ (processRoute_name i route mode)

/-- Witness for C10 on a one-candidate provider response. -/
theorem route_ids_identify_original_position_witness :
    ((processAndRank [scenarioRoute] "day").map (fun r => r.id)).Perm
        ((List.range (min ([scenarioRoute] : List Route).length 3)).map
          (fun i => "route_" ++ toString (i + 1)))
    ∧ ∀ r ∈ processAndRank [scenarioRoute] "day",
        ∃ i route, i < min ([scenarioRoute] : List Route).length 3
          ∧ ([scenarioRoute] : List Route)[i]? = some route
          ∧ r.id = "route_" ++ toString (i + 1)
          ∧ ({ r with name := "" } : ProcessedRoute) = processRoute i route "day" :=
  route_ids_identify_original_position [scenarioRoute] "day" (by decide)

/- ────────────────────────────────────────────────────────────────
   C2: statuses of geocoding failures.
   ──────────────────────────────────────────────────────────────── -/

/-- C2 counterexample: a transport-level geocoding failure for an
uncached place name surfaces as HTTP 500, not 422 — httpx transport
errors are not ValueError, so route_endpoint maps them through the
generic Exception branch. -/
theorem geocode_transport_failure_gives_500 :
    endpointStatus _SEED_CACHE geoFailEnv "Atlantis" "Delhi" "day" = 500
    ∧ endpointStatus _SEED_CACHE geoFailEnv "Atlantis" "Delhi" "day" ≠ 422 := by
  decide

/-- C2 amended: on a cache miss, an empty geocoding result raises
ValueError and is mapped to 422, while transport-level and
HTTP-status-level geocoding failures propagate as uncategorised
exceptions and are mapped to 500. -/
theorem geocode_failure_statuses (cache : Cache) (place : String)
    (h : List.lookup (normKey place) cache = none) :
    (∀ s : Nat, isSuccessStatus s →
        excStatus (geocode cache (GeoResp.response s []) place) = 422)
    ∧ excStatus (geocode cache GeoResp.transportFailure place) = 500
    ∧ (∀ (s : Nat) (body : List (ℚ × ℚ)), ¬ isSuccessStatus s →
        excStatus (geocode cache (GeoResp.response s body) place) = 500) := by
  refine ⟨?_, ?_, ?_⟩
  · intro s hs
    simp [geocode, h, hs, excStatus, handleExc]
  · simp [geocode, h, excStatus, handleExc]
  · intro s body hs
    simp [geocode, h, hs, excStatus, handleExc]

/-- Witness for the amended C2 theorem on an empty cache. -/
theorem geocode_failure_statuses_witness :
    excStatus (geocode [] (GeoResp.response 200 []) "Shangri La") = 422
    ∧ excStatus (geocode [] GeoResp.transportFailure "Shangri La") = 500
    ∧ excStatus (geocode [] (GeoResp.response 503 []) "Shangri La") = 500 :=
  ⟨(geocode_failure_statuses [] "Shangri La" rfl).1 200 (by decide),
   (geocode_failure_statuses [] "Shangri La" rfl).2.1,
   (geocode_failure_statuses [] "Shangri La" rfl).2.2 503 [] (by decide)⟩

/- ────────────────────────────────────────────────────────────────
   C3: statuses of routing failures.
   ──────────────────────────────────────────────────────────────── -/

/-- C3 counterexample: a transport-level OSRM failure (with both
endpoints cached) surfaces as HTTP 500, not 502 — httpx transport
errors are not RuntimeError, so route_endpoint maps them through the
generic Exception branch. -/
theorem osrm_transport_failure_gives_500 :
    endpointStatus _SEED_CACHE osrmFailEnv "Delhi" "Mumbai" "day" = 500
    ∧ endpointStatus _SEED_CACHE osrmFailEnv "Delhi" "Mumbai" "day" ≠ 502 := by
  decide

/-- C3 amended: with both endpoints resolving from the cache, an OSRM
body whose code is not "Ok" and a zero-candidate OSRM response each
raise RuntimeError and map to 502, while transport-level and
HTTP-status-level OSRM failures propagate as uncategorised exceptions
and map to 500. -/
theorem osrm_failure_statuses (cache : Cache) (env : Env)
    (origin destination mode : String) (co cd : ℚ × ℚ)
    (ho : List.lookup (normKey origin) cache = some co)
    (hd : List.lookup (normKey destination) cache = some cd) :
    (∀ (s : Nat) (code msg : String) (routes : List Route),
        env.osrmResp = OsrmResp.response s code msg routes → isSuccessStatus s →
        code ≠ "Ok" →
        excStatus (get_routes cache env origin destination mode) = 502)
    ∧ (∀ (s : Nat) (msg : String),
        env.osrmResp = OsrmResp.response s "Ok" msg [] → isSuccessStatus s →
        excStatus (get_routes cache env origin destination mode) = 502)
    ∧ (env.osrmResp = OsrmResp.transportFailure →
        excStatus (get_routes cache env origin destination mode) = 500)
    ∧ (∀ (s : Nat) (code msg : String) (routes : List Route),
        env.osrmResp = OsrmResp.response s code msg routes → ¬ isSuccessStatus s →
        excStatus (get_routes cache env origin destination mode) = 500) := by
  have hgo : geocode cache (env.geoResp origin) origin = .ok (co, cache) := by
    simp [geocode, ho]
  have hgd : geocode cache (env.geoResp destination) destination = .ok (cd, cache) := by
    simp [geocode, hd]
  refine ⟨?_, ?_, ?_, ?_⟩
  · intro s code msg routes hresp hs hcode
    simp [get_routes, hgo, hgd, hresp, fetch_osrm_routes, hs, hcode,
      excStatus, handleExc, Bind.bind, Except.bind]
  · intro s msg hresp hs
    simp [get_routes, hgo, hgd, hresp, fetch_osrm_routes, hs,
      excStatus, handleExc, Bind.bind, Except.bind]
  · intro hresp
    simp [get_routes, hgo, hgd, hresp, fetch_osrm_routes,
      excStatus, handleExc, Bind.bind, Except.bind]
  · intro s code msg routes hresp hs
    simp [get_routes, hgo, hgd, hresp, fetch_osrm_routes, hs,
      excStatus, handleExc, Bind.bind, Except.bind]

/-- Witness for the amended C3 theorem: OSRM replies HTTP 200 with
body code "Error", and the request maps to 502. -/
theorem osrm_failure_statuses_witness :
    excStatus (get_routes cacheW envOsrmNotOk "a" "b" "day") = 502 :=
  (osrm_failure_statuses cacheW envOsrmNotOk "a" "b" "day" (0, 0) (1, 1) rfl rfl).1
    200 "Error" "boom" [] rfl (by decide) (by decide)

/-- Witness for C6 at the scenario route. -/
theorem night_mode_penalty_magnitudes_witness :
    |(compute_safety scenarioRoute "day").penalties.isolation|
        ≤ |(compute_safety scenarioRoute "night").penalties.isolation|
    ∧ ((compute_safety scenarioRoute "day").penalties.road_type < 0 →
        |(compute_safety scenarioRoute "day").penalties.road_type|
          ≤ |(compute_safety scenarioRoute "night").penalties.road_type|) :=
  night_mode_penalty_magnitudes scenarioRoute
